import Mathlib

/-!
Verification development for the DeskMan endpoint agent
(src/agent/deskman_agent.py).

Python strings are modelled as lists of characters (`PyStr`); Python's
ASCII-relevant string primitives (`lower`, `strip`, `startswith`, slicing)
are given faithful executable counterparts.  Machine integers do not occur;
SHA-256 is implemented over `Nat` with explicit reduction modulo 2^32, with
the round constants derived, as in FIPS 180-4, from the fractional parts of
the square and cube roots of the first primes.

Effectful code (the dispatcher, the handlers, the result reporting) is
embedded as pure functions over explicit oracles for the environment
(filesystem answers, subprocess outcomes, backend-call success flags) and
explicit state (backend tables, the process working directory).
-/

namespace Deskman

/-! ## Python string model -/

/-- A Python string, as its list of characters (code points). -/
abbrev PyStr := List Char

/-- Coerce a Lean string literal to the `PyStr` model. -/
def sstr (s : String) : PyStr := s.data

/-- The whitespace characters recognised by Python's `str.strip()`
(restricted to ASCII, which is all the agent ever strips). -/
def pyIsSpace (c : Char) : Bool :=
  c = ' ' || c = '\t' || c = '\n' || c = '\r' || c = '\x0b' || c = '\x0c'

/-- Python `str.lstrip()` for whitespace. -/
def pyStripLeft (s : PyStr) : PyStr := s.dropWhile pyIsSpace

/-- Python `str.rstrip()` for whitespace. -/
def pyStripRight (s : PyStr) : PyStr := (s.reverse.dropWhile pyIsSpace).reverse

/-- Python `str.strip()` for whitespace. -/
def pyStrip (s : PyStr) : PyStr := pyStripRight (pyStripLeft s)

/-- Python `str.lower()` on one character, restricted to ASCII (the only
characters the dispatcher compares). -/
def pyLowerChar (c : Char) : Char :=
  match c with
  | 'A' => 'a' | 'B' => 'b' | 'C' => 'c' | 'D' => 'd' | 'E' => 'e'
  | 'F' => 'f' | 'G' => 'g' | 'H' => 'h' | 'I' => 'i' | 'J' => 'j'
  | 'K' => 'k' | 'L' => 'l' | 'M' => 'm' | 'N' => 'n' | 'O' => 'o'
  | 'P' => 'p' | 'Q' => 'q' | 'R' => 'r' | 'S' => 's' | 'T' => 't'
  | 'U' => 'u' | 'V' => 'v' | 'W' => 'w' | 'X' => 'x' | 'Y' => 'y'
  | 'Z' => 'z' | c => c

/-- Python `str.upper()` on one character, restricted to ASCII. -/
def pyUpperChar (c : Char) : Char :=
  match c with
  | 'a' => 'A' | 'b' => 'B' | 'c' => 'C' | 'd' => 'D' | 'e' => 'E'
  | 'f' => 'F' | 'g' => 'G' | 'h' => 'H' | 'i' => 'I' | 'j' => 'J'
  | 'k' => 'K' | 'l' => 'L' | 'm' => 'M' | 'n' => 'N' | 'o' => 'O'
  | 'p' => 'P' | 'q' => 'Q' | 'r' => 'R' | 's' => 'S' | 't' => 'T'
  | 'u' => 'U' | 'v' => 'V' | 'w' => 'W' | 'x' => 'X' | 'y' => 'Y'
  | 'z' => 'Z' | c => c

/-- Python `str.lower()`, restricted to ASCII. -/
def pyLower (s : PyStr) : PyStr := s.map pyLowerChar

/-- Python `str.upper()`, restricted to ASCII. -/
def pyUpper (s : PyStr) : PyStr := s.map pyUpperChar

/-- Python `s.startswith(p)`. -/
def pyStartsWith (s p : PyStr) : Bool := p.isPrefixOf s

/-! ## SHA-256 over Nat (FIPS 180-4), used by `_get_machine_fingerprint` -/

/-- Reduce to a 32-bit word. -/
def w32 (n : Nat) : Nat := n % 4294967296

/-- Logical right shift on a 32-bit word. -/
def shr32 (x n : Nat) : Nat := x / 2 ^ n

/-- Right rotation on a 32-bit word (`x` is assumed `< 2^32`). -/
def rotr32 (x n : Nat) : Nat := x / 2 ^ n + x % 2 ^ n * 2 ^ (32 - n)

/-- Bitwise complement on a 32-bit word (`x` is assumed `< 2^32`). -/
def not32 (x : Nat) : Nat := 4294967295 - x

/-- The SHA-256 `Ch` function. -/
def chWord (x y z : Nat) : Nat := (x &&& y) ^^^ (not32 x &&& z)

/-- The SHA-256 `Maj` function. -/
def majWord (x y z : Nat) : Nat := (x &&& y) ^^^ (x &&& z) ^^^ (y &&& z)

/-- The SHA-256 big Sigma-0 function. -/
def bigSigma0 (x : Nat) : Nat := rotr32 x 2 ^^^ rotr32 x 13 ^^^ rotr32 x 22

/-- The SHA-256 big Sigma-1 function. -/
def bigSigma1 (x : Nat) : Nat := rotr32 x 6 ^^^ rotr32 x 11 ^^^ rotr32 x 25

/-- The SHA-256 small sigma-0 function. -/
def smallSigma0 (x : Nat) : Nat := rotr32 x 7 ^^^ rotr32 x 18 ^^^ shr32 x 3

/-- The SHA-256 small sigma-1 function. -/
def smallSigma1 (x : Nat) : Nat := rotr32 x 17 ^^^ rotr32 x 19 ^^^ shr32 x 10

/-- Binary search step for the integer cube root. -/
def cbrtGo (n lo hi : Nat) : Nat :=
  if h : hi ≤ lo + 1 then lo
  else
    let m := (lo + hi) / 2
    if m ^ 3 ≤ n then cbrtGo n m hi else cbrtGo n lo m
termination_by hi - lo
decreasing_by
  all_goals simp only [m] at *
  all_goals omega

/-- Integer cube root: the largest `k` with `k^3 ≤ n`. -/
def cbrt (n : Nat) : Nat := cbrtGo n 0 (n + 1)

/-- The first 64 primes, whose cube roots generate the SHA-256 round
constants. -/
def primes64 : List Nat :=
  [2, 3, 5, 7, 11, 13, 17, 19, 23, 29, 31, 37, 41, 43, 47, 53,
   59, 61, 67, 71, 73, 79, 83, 89, 97, 101, 103, 107, 109, 113, 127, 131,
   137, 139, 149, 151, 157, 163, 167, 173, 179, 181, 191, 193, 197, 199, 211, 223,
   227, 229, 233, 239, 241, 251, 257, 263, 269, 271, 277, 281, 283, 293, 307, 311]

/-- A SHA-256 round constant: the first 32 bits of the fractional part of
the cube root of a prime. -/
def kOfPrime (p : Nat) : Nat := cbrt (p * 2 ^ 96) % 2 ^ 32

/-- The 64 SHA-256 round constants. -/
def kConstants : List Nat := primes64.map kOfPrime

/-- An initial SHA-256 hash word: the first 32 bits of the fractional part
of the square root of a prime. -/
def hOfPrime (p : Nat) : Nat := Nat.sqrt (p * 2 ^ 64) % 2 ^ 32

/-- The eight working variables of the SHA-256 compression function. -/
structure Hash8 where
  a : Nat
  b : Nat
  c : Nat
  d : Nat
  e : Nat
  f : Nat
  g : Nat
  h : Nat
deriving Repr, DecidableEq

/-- The SHA-256 initial hash value. -/
def hInit : Hash8 :=
  ⟨hOfPrime 2, hOfPrime 3, hOfPrime 5, hOfPrime 7,
   hOfPrime 11, hOfPrime 13, hOfPrime 17, hOfPrime 19⟩

/-- One round of the SHA-256 compression function. -/
def compressStep (s : Hash8) (kw : Nat × Nat) : Hash8 :=
  let t1 := w32 (s.h + bigSigma1 s.e + chWord s.e s.f s.g + kw.1 + kw.2)
  let t2 := w32 (bigSigma0 s.a + majWord s.a s.b s.c)
  ⟨w32 (t1 + t2), s.a, s.b, s.c, w32 (s.d + t1), s.e, s.f, s.g⟩

/-- Group a byte list into big-endian 32-bit words (four bytes each). -/
def wordsOfBytes : List Nat → List Nat
  | b0 :: b1 :: b2 :: b3 :: rest =>
      (((b0 * 256 + b1) * 256 + b2) * 256 + b3) :: wordsOfBytes rest
  | _ => []

/-- Extend the schedule by one word from the last sixteen. -/
def schedStep (acc : List Nat) : List Nat :=
  let n := acc.length
  acc ++ [w32 (smallSigma1 (acc.getD (n - 2) 0) + acc.getD (n - 7) 0 +
               smallSigma0 (acc.getD (n - 15) 0) + acc.getD (n - 16) 0)]

/-- The 64-word SHA-256 message schedule of a block's 16 words. -/
def messageSchedule (ws : List Nat) : List Nat :=
  (List.range 48).foldl (fun acc _ => schedStep acc) ws

/-- Compress one 64-byte block into the running hash. -/
def compressBlock (hs : Hash8) (block : List Nat) : Hash8 :=
  let ws := messageSchedule (wordsOfBytes block)
  let s := (kConstants.zip ws).foldl compressStep hs
  ⟨w32 (hs.a + s.a), w32 (hs.b + s.b), w32 (hs.c + s.c), w32 (hs.d + s.d),
   w32 (hs.e + s.e), w32 (hs.f + s.f), w32 (hs.g + s.g), w32 (hs.h + s.h)⟩

/-- Fold the compression function over the 64-byte blocks of a padded
message. -/
def sha256Blocks (hs : Hash8) (l : List Nat) : Hash8 :=
  if h : l = [] then hs
  else sha256Blocks (compressBlock hs (l.take 64)) (l.drop 64)
termination_by l.length
decreasing_by
  have hlen : 0 < l.length := List.length_pos.mpr h
  simp only [List.length_drop]
  omega

/-- The `k` low bytes of `n`, big-endian. -/
def beBytes : Nat → Nat → List Nat
  | 0, _ => []
  | k + 1, n => beBytes k (n / 256) ++ [n % 256]

/-- SHA-256 padding: a 0x80 byte, zeros to 56 mod 64, and the 64-bit
big-endian bit length. -/
def padMessage (msg : List Nat) : List Nat :=
  msg ++ [128] ++ List.replicate ((119 - msg.length % 64) % 64) 0 ++
    beBytes 8 (8 * msg.length)

/-- The SHA-256 digest of a byte list, as a 256-bit natural number. -/
def sha256 (msg : List Nat) : Nat :=
  let hs := sha256Blocks hInit (padMessage msg)
  ((((((hs.a * 2 ^ 32 + hs.b) * 2 ^ 32 + hs.c) * 2 ^ 32 + hs.d) * 2 ^ 32 +
     hs.e) * 2 ^ 32 + hs.f) * 2 ^ 32 + hs.g) * 2 ^ 32 + hs.h

/-- A lowercase hexadecimal digit. -/
def hexChar (n : Nat) : Char :=
  match n with
  | 0 => '0' | 1 => '1' | 2 => '2' | 3 => '3' | 4 => '4'
  | 5 => '5' | 6 => '6' | 7 => '7' | 8 => '8' | 9 => '9'
  | 10 => 'a' | 11 => 'b' | 12 => 'c' | 13 => 'd' | 14 => 'e'
  | 15 => 'f' | _ => '0'

/-- Exactly `digits` lowercase hex characters of `n`, most significant
first. -/
def natToHex : Nat → Nat → PyStr
  | 0, _ => []
  | d + 1, n => natToHex d (n / 16) ++ [hexChar (n % 16)]

/-- Python `hashlib.sha256(bytes).hexdigest()`: 64 lowercase hex
characters. -/
def sha256Hexdigest (msg : List Nat) : PyStr := natToHex 64 (sha256 msg)

/-- UTF-8 encoding of one character (Python `str.encode()`). -/
def utf8Char (c : Char) : List Nat :=
  let n := c.toNat
  if n < 128 then [n]
  else if n < 2048 then [192 + n / 64, 128 + n % 64]
  else if n < 65536 then [224 + n / 4096, 128 + n / 64 % 64, 128 + n % 64]
  else [240 + n / 262144, 128 + n / 4096 % 64, 128 + n / 64 % 64, 128 + n % 64]

/-- UTF-8 encoding of a string (Python `str.encode()`). -/
def utf8Encode (s : PyStr) : List Nat := s.flatMap utf8Char

/-! ## Fingerprint Resolver (`_get_machine_fingerprint`,
`_load_or_create_agent_id`) -/

/-- The machine-level fingerprint sources the agent reads: the OS machine
identifier (Windows `MachineGuid`, or the stripped contents of
`/etc/machine-id` / `/var/lib/dbus/machine-id`; `none` when none is
readable), the `uuid.getnode()` MAC integer (`none` when the call raises),
and the network hostname (`platform.node()`). -/
structure MachineEnv where
  machineId : Option PyStr
  mac : Option Nat
  hostname : PyStr
deriving DecidableEq

/-- Per-process environment: the machine sources plus process-local data
(pid, start time, working directory) that an identity derivation must not
depend on, and the contents of the `~/.deskman_agent_id` file if it
exists. -/
structure ProcEnv where
  machine : MachineEnv
  pid : Nat
  startTime : Nat
  cwd : PyStr
  idFileContent : Option PyStr

/-- The body of `_get_machine_fingerprint`: join the available sources with
a `|` delimiter, SHA-256 the UTF-8 bytes, and keep the first 12 hex digits
of the digest. -/
def get_machine_fingerprint (env : MachineEnv) : PyStr :=
  let parts : List PyStr :=
    (match env.machineId with | some m => [m] | none => []) ++
    (match env.mac with | some mac => [sstr (toString mac)] | none => []) ++
    [env.hostname]
  let raw := List.intercalate (sstr "|") parts
  (sha256Hexdigest (utf8Encode raw)).take 12

/-- The freshly derived agent id: `AGT-` followed by the uppercased first 8
characters of the fingerprint (`f"AGT-{fingerprint[:8].upper()}"`). -/
def deriveAgentId (env : MachineEnv) : PyStr :=
  sstr "AGT-" ++ pyUpper ((get_machine_fingerprint env).take 8)

/-- The body of `_load_or_create_agent_id`: if the id file exists and its
stripped contents are non-empty, return them; otherwise derive a fresh id
from the machine fingerprint.  (The subsequent best-effort write of the id
file does not affect the returned value.) -/
def load_or_create_agent_id (idFileContent : Option PyStr) (env : MachineEnv) :
    PyStr :=
  match idFileContent with
  | some content =>
      let stored := pyStrip content
      if stored ≠ [] then stored else deriveAgentId env
  | none => deriveAgentId env

/-- The agent id a process resolves, as a function of its environment. -/
def agentIdOfProcess (p : ProcEnv) : PyStr :=
  load_or_create_agent_id p.idFileContent p.machine

/-! ## Command Dispatcher routing (`_process_command`, lines 262-298) -/

/-- The handler the dispatcher routes a command to, together with the
argument remainder it passes (already sliced and stripped as in the
source).  `defaultShell` is the final `else` branch: the full command text
run as a shell command. -/
inductive Route where
  | whoami
  | hostname
  | osinfo
  | sysinfo
  | netinfo
  | uptime
  | processes
  | drives
  | ls (path : PyStr)
  | screenshot
  | webcam
  | download (filepath : PyStr)
  | shell (cmd : PyStr)
  | cd (path : PyStr)
  | defaultShell (cmd : PyStr)
deriving DecidableEq, Repr

/-- The routing chain of `_process_command`: comparisons are made on
`command_text.lower().strip()`, while the argument remainders are sliced
from the original `command_text`.  `cwd` is `os.getcwd()`, substituted when
`ls` is given no argument. -/
def route (command_text : PyStr) (cwd : PyStr) : Route :=
  let lower_cmd := pyStrip (pyLower command_text)
  if lower_cmd = sstr "whoami" then .whoami
  else if lower_cmd = sstr "hostname" then .hostname
  else if lower_cmd = sstr "osinfo" then .osinfo
  else if lower_cmd = sstr "sysinfo" then .sysinfo
  else if lower_cmd = sstr "netinfo" then .netinfo
  else if lower_cmd = sstr "uptime" then .uptime
  else if lower_cmd = sstr "processes" then .processes
  else if lower_cmd = sstr "drives" then .drives
  else if pyStartsWith lower_cmd (sstr "ls") then
    let p := pyStrip (command_text.drop 2)
    .ls (if p = [] then cwd else p)
  else if lower_cmd = sstr "__screenshot" then .screenshot
  else if lower_cmd = sstr "__webcam" then .webcam
  else if pyStartsWith lower_cmd (sstr "download ") then
    .download (pyStrip (command_text.drop 9))
  else if pyStartsWith lower_cmd (sstr "shell ") then
    .shell (pyStrip (command_text.drop 6))
  else if pyStartsWith lower_cmd (sstr "cd ") then
    .cd (pyStrip (command_text.drop 3))
  else .defaultShell command_text

/-- The disjunction of the trigger conditions the source's routing chain
actually tests (a command matches some trigger exactly when this is
`true`; otherwise routing falls through to the shell default). -/
def codeTriggerMatches (command_text : PyStr) : Bool :=
  let lower_cmd := pyStrip (pyLower command_text)
  lower_cmd = sstr "whoami" || lower_cmd = sstr "hostname" ||
  lower_cmd = sstr "osinfo" || lower_cmd = sstr "sysinfo" ||
  lower_cmd = sstr "netinfo" || lower_cmd = sstr "uptime" ||
  lower_cmd = sstr "processes" || lower_cmd = sstr "drives" ||
  pyStartsWith lower_cmd (sstr "ls") ||
  lower_cmd = sstr "__screenshot" || lower_cmd = sstr "__webcam" ||
  pyStartsWith lower_cmd (sstr "download ") ||
  pyStartsWith lower_cmd (sstr "shell ") ||
  pyStartsWith lower_cmd (sstr "cd ")

/-- Modelled from the spec trigger table (section 4.3) for claim C3: a
command text matches a listed trigger when its lowercased, stripped form is
one of the word triggers, is `ls` alone or `ls` followed by a space and a
path, or begins with `download `, `shell `, or `cd `. -/
def specTriggerMatches (command_text : PyStr) : Bool :=
  let lower_cmd := pyStrip (pyLower command_text)
  lower_cmd = sstr "whoami" || lower_cmd = sstr "hostname" ||
  lower_cmd = sstr "osinfo" || lower_cmd = sstr "sysinfo" ||
  lower_cmd = sstr "netinfo" || lower_cmd = sstr "uptime" ||
  lower_cmd = sstr "processes" || lower_cmd = sstr "drives" ||
  lower_cmd = sstr "ls" || pyStartsWith lower_cmd (sstr "ls ") ||
  lower_cmd = sstr "__screenshot" || lower_cmd = sstr "__webcam" ||
  pyStartsWith lower_cmd (sstr "download ") ||
  pyStartsWith lower_cmd (sstr "shell ") ||
  pyStartsWith lower_cmd (sstr "cd ")

/-! ## Shell handler (`_cmd_shell`) -/

/-- The outcome of the `subprocess.run(cmd, shell=True, ..., timeout=60)`
call: a completed process with its two streams and return code, a
`TimeoutExpired` after 60 seconds, or some other raised exception with its
message. -/
inductive ShellOutcome where
  | completed (stdout stderr : PyStr) (returncode : Int)
  | timedOut
  | raised (msg : PyStr)
deriving DecidableEq

/-- The body of `_cmd_shell`: start from stdout; if stderr is non-empty,
append it after a newline when stdout is non-empty and alone otherwise;
strip the result and substitute the `(no output)` placeholder when it is
empty.  A timeout yields the literal timeout message with exit code 1; any
other exception yields a `Shell error:` message with exit code 1. -/
def cmd_shell (o : ShellOutcome) : PyStr × Int :=
  match o with
  | .completed stdout stderr returncode =>
      let output := if stderr ≠ [] then
        (if stdout ≠ [] then stdout ++ sstr "\n" ++ stderr else stdout ++ stderr)
        else stdout
      let stripped := pyStrip output
      (if stripped = [] then sstr "(no output)" else stripped, returncode)
  | .timedOut => (sstr "Command timed out (60s limit)", 1)
  | .raised msg => (sstr "Shell error: " ++ msg, 1)

/-- Modelled from the words of claim C4 (amended only in the placeholder
literal): standard output with standard error concatenated, the error
stream appended after a newline when both are non-empty, surrounding
whitespace trimmed, and an empty result reported as the placeholder. -/
def shellOutputClaim (stdout stderr : PyStr) : PyStr :=
  let combined :=
    if stdout ≠ [] ∧ stderr ≠ [] then stdout ++ sstr "\n" ++ stderr
    else stdout ++ stderr
  let trimmed := pyStrip combined
  if trimmed = [] then sstr "(no output)" else trimmed

/-! ## Change-directory handler (`_cmd_cd`) -/

/-- The outcome of `os.chdir(path)`: success (carrying the `os.getcwd()`
value reported afterwards) or a raised exception with its message. -/
inductive ChdirOutcome where
  | ok (newCwd : PyStr)
  | err (msg : PyStr)
deriving DecidableEq

/-- Process-local state the handlers touch: the current working
directory. -/
structure AgentProcState where
  cwd : PyStr
deriving DecidableEq

/-- The body of `_cmd_cd`: expand the user path, attempt `os.chdir`, and on
failure report an error message while leaving the working directory
untouched. -/
def cmd_cd (expand : PyStr → PyStr) (chdir : PyStr → ChdirOutcome)
    (path : PyStr) (st : AgentProcState) : PyStr × AgentProcState :=
  let p := expand path
  match chdir p with
  | .ok newCwd => (sstr "Changed directory to: " ++ newCwd, ⟨newCwd⟩)
  | .err msg => (sstr "Failed to change directory: " ++ msg, st)

/-! ## Directory-listing handler (`_cmd_ls`) -/

/-- One row of a directory listing, as uploaded to `file_listings` and
rendered for the console. -/
structure LsEntry where
  name : PyStr
  type : PyStr
  size : PyStr
  date : PyStr
deriving DecidableEq

/-- The outcome of the per-entry `os.stat`/`os.path.isdir` calls: the
directory flag, the byte size, and the already-formatted modification time
(the `strftime` rendering is environment data), or a raised
`PermissionError`/`OSError`. -/
inductive StatOutcome where
  | ok (isDirectory : Bool) (sizeBytes : Nat) (mtime : PyStr)
  | osError
deriving DecidableEq

/-- The outcome of `os.listdir(path)`: the entry names, or a raised
`PermissionError`. -/
inductive ListdirOutcome where
  | ok (names : List PyStr)
  | permissionError
deriving DecidableEq

/-- The `file_listings` table, keyed by path (the agent id is fixed for one
process): the structured entries last upserted for each path. -/
structure ListingsState where
  listings : PyStr → Option (List LsEntry)

/-- The extension table of `_get_file_type`, keyed by lowercased
extension. -/
def fileTypeTable : List (PyStr × PyStr) :=
  [(sstr ".txt", sstr "Text"), (sstr ".md", sstr "Markdown"),
   (sstr ".log", sstr "Log"), (sstr ".pdf", sstr "PDF"),
   (sstr ".doc", sstr "Word"), (sstr ".docx", sstr "Word"),
   (sstr ".xls", sstr "Excel"), (sstr ".xlsx", sstr "Excel"),
   (sstr ".ppt", sstr "PowerPoint"), (sstr ".pptx", sstr "PowerPoint"),
   (sstr ".png", sstr "Image"), (sstr ".jpg", sstr "Image"),
   (sstr ".jpeg", sstr "Image"), (sstr ".gif", sstr "Image"),
   (sstr ".zip", sstr "Archive"), (sstr ".rar", sstr "Archive"),
   (sstr ".7z", sstr "Archive"), (sstr ".tar", sstr "Archive"),
   (sstr ".gz", sstr "Archive"), (sstr ".exe", sstr "Executable"),
   (sstr ".msi", sstr "Installer"), (sstr ".html", sstr "HTML"),
   (sstr ".css", sstr "CSS"), (sstr ".js", sstr "JavaScript"),
   (sstr ".py", sstr "Python"), (sstr ".json", sstr "JSON"),
   (sstr ".xml", sstr "XML"), (sstr ".yaml", sstr "YAML"),
   (sstr ".yml", sstr "YAML"), (sstr ".sh", sstr "Shell"),
   (sstr ".bat", sstr "Batch"), (sstr ".ps1", sstr "PowerShell")]

/-- Python `os.path.splitext(name)[1]`: the suffix from the last dot,
except that dots leading the name carry no extension. -/
def splitextExtension (name : PyStr) : PyStr :=
  let leading := name.takeWhile (· = '.')
  let rest := name.drop leading.length
  let tailPart := rest.reverse.takeWhile (· ≠ '.')
  if tailPart.length = rest.length then []
  else '.' :: tailPart.reverse

/-- The body of `_get_file_type`: look the lowercased extension up in the
table, defaulting to `File`. -/
def get_file_type (filename : PyStr) : PyStr :=
  let ext := pyLower (splitextExtension filename)
  match fileTypeTable.find? (fun kv => kv.1 = ext) with
  | some kv => kv.2
  | none => sstr "File"

/-- Python `str.ljust(w)`: pad on the right with spaces to width `w`. -/
def ljust (s : PyStr) (w : Nat) : PyStr :=
  s ++ List.replicate (w - s.length) ' '

/-- Python `"|".join`-style joining. -/
def joinWith (sep : PyStr) (parts : List PyStr) : PyStr :=
  List.intercalate sep parts

/-- Lexicographic string comparison by code point, as Python `sorted`
uses. -/
def pyStrLe : PyStr → PyStr → Bool
  | [], _ => true
  | _ :: _, [] => false
  | a :: as, b :: bs =>
      if a.toNat < b.toNat then true
      else if b.toNat < a.toNat then false
      else pyStrLe as bs

/-- The entry record `_cmd_ls` builds for one name, given the stat
outcome for the joined path and the size formatter (`_format_size`, whose
floating-point rendering is environment data). -/
def lsEntryOf (fmtSize : Nat → PyStr) (name : PyStr) (st : StatOutcome) :
    LsEntry :=
  match st with
  | .ok isDirectory sizeBytes mtime =>
      ⟨name, if isDirectory then sstr "folder" else get_file_type name,
        if isDirectory then sstr "-" else fmtSize sizeBytes, mtime⟩
  | .osError =>
      ⟨name, sstr "unknown", sstr "-", sstr "-"⟩

/-- The console rendering of a listing: the directory header, one padded
line per entry with a `[DIR]` marker for folders, and the item count. -/
def renderLs (path : PyStr) (entries : List LsEntry) : PyStr :=
  let lines :=
    [sstr "Directory: " ++ path ++ sstr "\n"] ++
    entries.map (fun e =>
      let dirMark := if e.type = sstr "folder" then sstr "[DIR] "
        else sstr "      "
      sstr "  " ++ dirMark ++ ljust e.name 40 ++ sstr " " ++
        ljust e.size 12 ++ sstr " " ++ e.date) ++
    [sstr "\nTotal: " ++ sstr (toString entries.length) ++ sstr " items"]
  joinWith (sstr "\n") lines

/-- The body of `_cmd_ls`, over filesystem oracles: expand the user path;
a non-directory returns `Not a directory` with no listing side-effect; a
denied `os.listdir` returns `Permission denied` with no listing
side-effect; otherwise build the entries over the sorted names, upsert
them into `file_listings` (best-effort: a failed upsert is swallowed), and
return the text rendering. -/
def cmd_ls (expand : PyStr → PyStr) (isDir : PyStr → Bool)
    (listdir : PyStr → ListdirOutcome) (statOf : PyStr → StatOutcome)
    (fmtSize : Nat → PyStr) (upsertOk : Bool)
    (path : PyStr) (st : ListingsState) : PyStr × ListingsState :=
  let p := expand path
  if !isDir p then (sstr "Not a directory: " ++ p, st)
  else
    match listdir p with
    | .permissionError => (sstr "Permission denied: " ++ p, st)
    | .ok names =>
        let sorted := names.mergeSort pyStrLe
        let entries := sorted.map (fun name =>
          lsEntryOf fmtSize name (statOf (p ++ sstr "/" ++ name)))
        let st' : ListingsState :=
          if upsertOk then
            ⟨fun q => if q = p then some entries else st.listings q⟩
          else st
        (renderLs p entries, st')

/-! ## Command processing and result reporting (`_process_command`,
`poll_commands`) -/

/-- The status field of a `commands` row. -/
inductive CmdStatus where
  | pending
  | running
  | completed
  | failed
deriving DecidableEq, Repr

/-- An incoming `commands` row, as the poll loop sees it. -/
structure Command where
  id : Nat
  command : PyStr
deriving DecidableEq

/-- A `command_results` row. -/
structure ResultRec where
  command_id : Nat
  agent_id : PyStr
  output : PyStr
  exit_code : Int
deriving DecidableEq

/-- One backend call attempted while processing a command: the best-effort
`running` update, the result insert, or the terminal status update. -/
inductive BackendOp where
  | markRunning (id : Nat)
  | insertResult (r : ResultRec)
  | markTerminal (id : Nat) (status : CmdStatus)
deriving DecidableEq

/-- Which of the three backend calls of one `_process_command` invocation
succeed; a `false` models the call raising. -/
structure ReportFate where
  markRunningOk : Bool
  insertOk : Bool
  markTerminalOk : Bool
deriving DecidableEq

/-- The backend tables the dispatcher mutates: the status of each command
row and the inserted result rows, in insertion order. -/
structure Backend where
  commandStatus : Nat → CmdStatus
  results : List ResultRec

/-- The result of the routed handler inside the dispatcher's `try` block:
either the `(output, exit_code)` pair it returned, or the message of the
exception it raised. -/
abbrev HandlerOutcome := Except PyStr (PyStr × Int)

/-- The `except` clause of the dispatcher: a handler exception becomes the
`Error:` text with exit code 1; a normal return passes through. -/
def dispatchOutput (h : HandlerOutcome) : PyStr × Int :=
  match h with
  | .ok r => r
  | .error e => (sstr "Error: " ++ e, 1)

/-- The terminal status written for an exit code: `completed` for zero,
`failed` otherwise. -/
def terminalStatus (exit_code : Int) : CmdStatus :=
  if exit_code = 0 then .completed else .failed

/-- The sequence of backend calls `_process_command` attempts for one
command: the best-effort `running` update, then (after the handler ran)
the result insert, then — only if the insert did not raise — the terminal
status update.  These are the calls issued, in source order, whether or
not the backend accepts them. -/
def processCommandOps (agent_id : PyStr) (c : Command) (h : HandlerOutcome)
    (fate : ReportFate) : List BackendOp :=
  let out := dispatchOutput h
  [BackendOp.markRunning c.id,
   BackendOp.insertResult ⟨c.id, agent_id, out.1, out.2⟩] ++
  (if fate.insertOk then [BackendOp.markTerminal c.id (terminalStatus out.2)]
   else [])

/-- Set one command's status in the backend. -/
def setStatus (b : Backend) (id : Nat) (s : CmdStatus) : Backend :=
  ⟨fun i => if i = id then s else b.commandStatus i, b.results⟩

/-- The backend-state effect of one `_process_command` invocation: the
`running` update applies when its call succeeds (its failure is swallowed);
the result row is inserted when the insert succeeds; the terminal status
applies when the insert succeeded (so the update was reached) and the
update itself succeeds.  A failure of the reporting block is printed and
swallowed — the invocation never raises. -/
def processCommand (agent_id : PyStr) (c : Command) (h : HandlerOutcome)
    (fate : ReportFate) (b : Backend) : Backend :=
  let b1 := if fate.markRunningOk then setStatus b c.id .running else b
  let out := dispatchOutput h
  let b2 := if fate.insertOk then
      ⟨b1.commandStatus, b1.results ++ [⟨c.id, agent_id, out.1, out.2⟩]⟩
    else b1
  if fate.insertOk && fate.markTerminalOk then
    setStatus b2 c.id (terminalStatus out.2)
  else b2

/-- One poll tick over its fetched pending commands: each is processed in
order by `_process_command`, whatever its handler did — a handler failure
is converted inside `processCommand` and the loop moves to the next
command. -/
def pollTick (agent_id : PyStr) (cmds : List Command)
    (handlerOf : Command → HandlerOutcome) (fateOf : Command → ReportFate)
    (b : Backend) : Backend :=
  cmds.foldl (fun acc c => processCommand agent_id c (handlerOf c) (fateOf c) acc) b

/-- Recognise the result-insert call in an attempted-call sequence. -/
def isInsertResultOp : BackendOp → Bool
  | .insertResult _ => true
  | _ => false

/-- Recognise the terminal status update in an attempted-call sequence. -/
def isMarkTerminalOp : BackendOp → Bool
  | .markTerminal _ _ => true
  | _ => false

/-! ## Helper lemmas -/

theorem natToHex_length (d n : Nat) : (natToHex d n).length = d := by
  induction d generalizing n with
  | zero => rfl
  | succ d ih => simp [natToHex, ih]

theorem hexChar_mem (n : Nat) : hexChar n ∈ sstr "0123456789abcdef" := by
  unfold hexChar
  split <;> decide

theorem natToHex_mem (d n : Nat) :
    ∀ ch ∈ natToHex d n, ch ∈ sstr "0123456789abcdef" := by
  induction d generalizing n with
  | zero => intro ch hch; simp [natToHex] at hch
  | succ d ih =>
      intro ch hch
      simp only [natToHex, List.mem_append, List.mem_singleton] at hch
      rcases hch with hch | hch
      · exact ih _ ch hch
      · exact hch ▸ hexChar_mem _

theorem upperChar_of_hex :
    ∀ ch ∈ sstr "0123456789abcdef", pyUpperChar ch ∈ sstr "0123456789ABCDEF" := by
  decide

theorem fingerprint_length (env : MachineEnv) :
    (get_machine_fingerprint env).length = 12 := by
  unfold get_machine_fingerprint
  simp [sha256Hexdigest, natToHex_length]

theorem fingerprint_mem (env : MachineEnv) :
    ∀ ch ∈ get_machine_fingerprint env, ch ∈ sstr "0123456789abcdef" := by
  intro ch hch
  unfold get_machine_fingerprint at hch
  exact natToHex_mem 64 _ ch (List.mem_of_mem_take hch)

theorem processCommand_results_length (agent_id : PyStr) (c : Command)
    (h : HandlerOutcome) (fate : ReportFate) (b : Backend) :
    (processCommand agent_id c h fate b).results.length =
      b.results.length + (if fate.insertOk then 1 else 0) := by
  unfold processCommand setStatus
  by_cases h1 : fate.markRunningOk <;> by_cases h2 : fate.insertOk <;>
    by_cases h3 : fate.markTerminalOk <;> simp [h1, h2, h3]

theorem pollTick_results_length (agent_id : PyStr) (cmds : List Command)
    (handlerOf : Command → HandlerOutcome) (fateOf : Command → ReportFate)
    (b : Backend) (hfate : ∀ c, (fateOf c).insertOk = true) :
    (pollTick agent_id cmds handlerOf fateOf b).results.length =
      b.results.length + cmds.length := by
  induction cmds generalizing b with
  | nil => simp [pollTick]
  | cons c cs ih =>
      have hstep := processCommand_results_length agent_id c (handlerOf c) (fateOf c) b
      rw [hfate c, if_pos rfl] at hstep
      have htail := ih (processCommand agent_id c (handlerOf c) (fateOf c) b)
      simp only [pollTick, List.foldl_cons] at htail ⊢
      rw [htail, hstep, List.length_cons]
      omega

/-! ## Claim theorems -/

/-- C4, counterexample: with empty standard output and standard error the
shell handler reports the parenthesized literal `(no output)`, not the bare
text `no output` the claim names. -/
theorem shell_placeholder_is_parenthesized :
    cmd_shell (.completed [] [] 0) = (sstr "(no output)", 0) ∧
    (cmd_shell (.completed [] [] 0)).1 ≠ sstr "no output" := by
  decide

/-- C4, amended: for every completed shell execution the output is standard
output with standard error concatenated (the error stream appended after a
newline when both are non-empty), surrounding whitespace trimmed, with an
empty result reported as the literal placeholder `(no output)`; and a
command exceeding the 60-second timeout is reported as the literal timeout
message with exit code 1 (a value, not a crash). -/
theorem shell_output_concat_trim_placeholder_timeout (stdout stderr : PyStr)
    (returncode : Int) :
    cmd_shell (.completed stdout stderr returncode) =
      (shellOutputClaim stdout stderr, returncode) ∧
    cmd_shell .timedOut = (sstr "Command timed out (60s limit)", 1) ∧
    (cmd_shell ShellOutcome.timedOut).2 ≠ 0 := by
  refine ⟨?_, rfl, by decide⟩
  unfold cmd_shell shellOutputClaim
  by_cases hs : stdout = [] <;> by_cases he : stderr = [] <;> simp [hs, he]

/-- C5: for a fixed machine (identical machine-id, MAC and hostname
sources) and no persisted identity file, two processes — however they
differ in pid, start time or working directory — derive the identical
agent id. -/
theorem agent_id_deterministic_across_processes (p q : ProcEnv)
    (hm : p.machine = q.machine) (hp : p.idFileContent = none)
    (hq : q.idFileContent = none) :
    agentIdOfProcess p = agentIdOfProcess q := by
  simp [agentIdOfProcess, load_or_create_agent_id, hp, hq, hm]

/-- Witness for C5 at two concrete processes differing in pid, start time
and working directory. -/
theorem agent_id_deterministic_across_processes_witness :
    (⟨⟨some (sstr "f2c1"), some 42, sstr "host-a"⟩, 101, 5, sstr "/tmp",
        none⟩ : ProcEnv).machine =
      (⟨⟨some (sstr "f2c1"), some 42, sstr "host-a"⟩, 202, 9, sstr "/opt",
        none⟩ : ProcEnv).machine ∧
    agentIdOfProcess
        ⟨⟨some (sstr "f2c1"), some 42, sstr "host-a"⟩, 101, 5, sstr "/tmp", none⟩ =
      agentIdOfProcess
        ⟨⟨some (sstr "f2c1"), some 42, sstr "host-a"⟩, 202, 9, sstr "/opt", none⟩ :=
  ⟨rfl, agent_id_deterministic_across_processes _ _ rfl rfl rfl⟩

/-- C6: when the identity file holds a persisted (non-empty,
whitespace-clean) identifier, identity resolution returns it unchanged,
whatever the state of every fingerprint source. -/
theorem persisted_agent_id_takes_precedence (p : ProcEnv) (c : PyStr)
    (hfile : p.idFileContent = some c) (hclean : pyStrip c = c)
    (hne : c ≠ []) :
    agentIdOfProcess p = c := by
  simp [agentIdOfProcess, load_or_create_agent_id, hfile, hclean, hne]

/-- Witness for C6: a persisted id is returned even though the machine
sources would derive something else. -/
theorem persisted_agent_id_takes_precedence_witness :
    (⟨⟨none, none, sstr "other-host"⟩, 1, 1, sstr "/",
        some (sstr "AGT-12AB34CD")⟩ : ProcEnv).idFileContent =
      some (sstr "AGT-12AB34CD") ∧
    pyStrip (sstr "AGT-12AB34CD") = sstr "AGT-12AB34CD" ∧
    sstr "AGT-12AB34CD" ≠ [] ∧
    agentIdOfProcess
        ⟨⟨none, none, sstr "other-host"⟩, 1, 1, sstr "/",
          some (sstr "AGT-12AB34CD")⟩ = sstr "AGT-12AB34CD" :=
  ⟨rfl, by decide, by decide,
    persisted_agent_id_takes_precedence _ _ rfl (by decide) (by decide)⟩

/-- C9: an identity file holding only whitespace is not returned: the
resolver falls through to fingerprint derivation and yields `AGT-` followed
by exactly 8 uppercase hexadecimal characters (in particular, a non-empty
id). -/
theorem blank_id_file_falls_through_to_derivation (p : ProcEnv) (c : PyStr)
    (hfile : p.idFileContent = some c) (hws : pyStrip c = []) :
    agentIdOfProcess p = deriveAgentId p.machine ∧
    agentIdOfProcess p ≠ [] ∧
    ∃ t : PyStr, agentIdOfProcess p = sstr "AGT-" ++ t ∧ t.length = 8 ∧
      ∀ ch ∈ t, ch ∈ sstr "0123456789ABCDEF" := by
  have hres : agentIdOfProcess p = deriveAgentId p.machine := by
    simp [agentIdOfProcess, load_or_create_agent_id, hfile, hws]
  refine ⟨hres, ?_, ?_⟩
  · rw [hres]; unfold deriveAgentId; simp [sstr]
  · refine ⟨pyUpper ((get_machine_fingerprint p.machine).take 8), ?_, ?_, ?_⟩
    · rw [hres]; rfl
    · have hlen : ((get_machine_fingerprint p.machine).take 8).length = 8 := by
        rw [List.length_take, fingerprint_length]
        decide
      rw [pyUpper, List.length_map, hlen]
    · intro ch hch
      rw [pyUpper] at hch
      rcases List.mem_map.mp hch with ⟨a, ha, rfl⟩
      exact upperChar_of_hex a
        (fingerprint_mem p.machine a (List.mem_of_mem_take ha))

/-- Witness for C9 at a concrete whitespace-only identity file. -/
theorem blank_id_file_falls_through_to_derivation_witness :
    (⟨⟨some (sstr "f2c1"), some 42, sstr "host-a"⟩, 1, 1, sstr "/",
        some (sstr " \t\n ")⟩ : ProcEnv).idFileContent = some (sstr " \t\n ") ∧
    pyStrip (sstr " \t\n ") = [] ∧
    agentIdOfProcess
        ⟨⟨some (sstr "f2c1"), some 42, sstr "host-a"⟩, 1, 1, sstr "/",
          some (sstr " \t\n ")⟩ ≠ [] :=
  ⟨rfl, by decide,
    (blank_id_file_falls_through_to_derivation _ _ rfl (by decide)).2.1⟩

/-- C8: when `os.chdir` fails (for example on a nonexistent path), the cd
handler returns the `Failed to change directory` error text and the
process state — hence the working directory every subsequent handler
invocation observes — is exactly the prior state. -/
theorem cd_failure_preserves_working_directory (expand : PyStr → PyStr)
    (chdir : PyStr → ChdirOutcome) (path msg : PyStr) (st : AgentProcState)
    (hfail : chdir (expand path) = .err msg) :
    cmd_cd expand chdir path st =
      (sstr "Failed to change directory: " ++ msg, st) ∧
    (cmd_cd expand chdir path st).2.cwd = st.cwd := by
  constructor <;> simp [cmd_cd, hfail]

/-- Witness for C8 at a concrete failing chdir. -/
theorem cd_failure_preserves_working_directory_witness :
    (fun _ : PyStr => ChdirOutcome.err (sstr "No such file or directory"))
        ((fun p : PyStr => p) (sstr "/nonexistent")) =
      ChdirOutcome.err (sstr "No such file or directory") ∧
    cmd_cd (fun p => p)
        (fun _ => ChdirOutcome.err (sstr "No such file or directory"))
        (sstr "/nonexistent") ⟨sstr "/home/user"⟩ =
      (sstr "Failed to change directory: No such file or directory",
        ⟨sstr "/home/user"⟩) :=
  ⟨rfl,
    (cd_failure_preserves_working_directory _ _ _ _ _ rfl).1⟩

/-- C7: an ls invocation on a non-directory path, or one whose listing
raises `PermissionError`, returns the corresponding descriptive error
string and leaves the `file_listings` state untouched. -/
theorem ls_error_has_no_listing_side_effect (expand : PyStr → PyStr)
    (isDir : PyStr → Bool) (listdir : PyStr → ListdirOutcome)
    (statOf : PyStr → StatOutcome) (fmtSize : Nat → PyStr) (upsertOk : Bool)
    (path : PyStr) (st : ListingsState)
    (herr : isDir (expand path) = false ∨
      listdir (expand path) = .permissionError) :
    (cmd_ls expand isDir listdir statOf fmtSize upsertOk path st).2 = st ∧
    ((cmd_ls expand isDir listdir statOf fmtSize upsertOk path st).1 =
        sstr "Not a directory: " ++ expand path ∨
      (cmd_ls expand isDir listdir statOf fmtSize upsertOk path st).1 =
        sstr "Permission denied: " ++ expand path) := by
  by_cases hd : isDir (expand path) = false
  · constructor
    · simp [cmd_ls, hd]
    · left; simp [cmd_ls, hd]
  · rcases herr with h | h
    · exact absurd h hd
    · have hd' : isDir (expand path) = true := by
        revert hd; cases isDir (expand path) <;> simp
      constructor
      · simp [cmd_ls, hd', h]
      · right; simp [cmd_ls, hd', h]

/-- Witness for C7 at a concrete non-directory path. -/
theorem ls_error_has_no_listing_side_effect_witness :
    ((fun _ : PyStr => false) ((fun p : PyStr => p) (sstr "/etc/passwd")) = false ∨
      (fun _ : PyStr => ListdirOutcome.ok []) ((fun p : PyStr => p) (sstr "/etc/passwd")) =
        ListdirOutcome.permissionError) ∧
    (cmd_ls (fun p => p) (fun _ => false) (fun _ => ListdirOutcome.ok [])
        (fun _ => StatOutcome.osError) (fun _ => []) true (sstr "/etc/passwd")
        ⟨fun _ => none⟩).2 = (⟨fun _ => none⟩ : ListingsState) :=
  ⟨Or.inl rfl,
    (ls_error_has_no_listing_side_effect _ _ _ _ _ _ _ _ (Or.inl rfl)).1⟩

/-- C1: a handler that raises internally is converted by the dispatcher to
the `Error:` text with exit code 1 (non-zero), and no handler failure stops
the poll tick: whatever each handler did — raised or returned — every
fetched command is processed and (when its result insert succeeds) yields
its result row, so a tick over `n` commands adds exactly `n` rows. -/
theorem handler_failure_converted_and_loop_continues (agent_id : PyStr)
    (cmds : List Command) (handlerOf : Command → HandlerOutcome)
    (fateOf : Command → ReportFate) (b : Backend)
    (hfate : ∀ c, (fateOf c).insertOk = true) :
    (pollTick agent_id cmds handlerOf fateOf b).results.length =
      b.results.length + cmds.length ∧
    ∀ e : PyStr, dispatchOutput (.error e) = (sstr "Error: " ++ e, 1) ∧
      (dispatchOutput (Except.error e)).2 ≠ 0 := by
  refine ⟨pollTick_results_length agent_id cmds handlerOf fateOf b hfate, ?_⟩
  intro e
  constructor
  · rfl
  · simp [dispatchOutput]

/-- Witness for C1: a tick of two commands whose first handler raises still
produces a result row for both commands. -/
theorem handler_failure_converted_and_loop_continues_witness :
    (∀ c : Command,
      ((fun _ : Command => (⟨true, true, true⟩ : ReportFate)) c).insertOk = true) ∧
    (pollTick (sstr "AGT-12AB34CD") [⟨1, sstr "whoami"⟩, ⟨2, sstr "sysinfo"⟩]
        (fun c => if c.id = 1 then Except.error (sstr "boom") else
          Except.ok (sstr "ok", 0))
        (fun _ => ⟨true, true, true⟩)
        ⟨fun _ => CmdStatus.pending, []⟩).results.length = 0 + 2 :=
  ⟨fun _ => rfl,
    (handler_failure_converted_and_loop_continues _ _ _ _ _ (fun _ => rfl)).1⟩

/-- C2, counterexample: in the sequence of backend calls issued for a
command that reaches a terminal state, the result insert sits at index 1
and the terminal status update at index 2 — the CommandResult is written
immediately BEFORE the terminal transition, not immediately after it as
the claim states. -/
theorem commandResult_written_before_terminal_counterexample :
    (processCommandOps (sstr "AGT-12AB34CD") ⟨7, sstr "whoami"⟩
        (Except.ok (sstr "root", 0)) ⟨true, true, true⟩).findIdx
        isInsertResultOp = 1 ∧
    (processCommandOps (sstr "AGT-12AB34CD") ⟨7, sstr "whoami"⟩
        (Except.ok (sstr "root", 0)) ⟨true, true, true⟩).findIdx
        isMarkTerminalOp = 2 ∧
    ¬ (processCommandOps (sstr "AGT-12AB34CD") ⟨7, sstr "whoami"⟩
        (Except.ok (sstr "root", 0)) ⟨true, true, true⟩).findIdx
        isMarkTerminalOp <
      (processCommandOps (sstr "AGT-12AB34CD") ⟨7, sstr "whoami"⟩
        (Except.ok (sstr "root", 0)) ⟨true, true, true⟩).findIdx
        isInsertResultOp := by
  decide

/-- C2, amended: for a command whose processing reaches a terminal state
(`completed`/`failed`), exactly one CommandResult row with its command id
is produced, and in the issued call sequence that insert immediately
PRECEDES the terminal status transition (insert at index 1, terminal
update at index 2). -/
theorem one_commandResult_adjacent_to_terminal (agent_id : PyStr)
    (c : Command) (h : HandlerOutcome) (fate : ReportFate) (b : Backend)
    (hfresh : ∀ r ∈ b.results, r.command_id ≠ c.id)
    (hins : fate.insertOk = true) (hter : fate.markTerminalOk = true) :
    ((processCommand agent_id c h fate b).commandStatus c.id =
        CmdStatus.completed ∨
      (processCommand agent_id c h fate b).commandStatus c.id =
        CmdStatus.failed) ∧
    ((processCommand agent_id c h fate b).results.filter
        (fun r => r.command_id = c.id)).length = 1 ∧
    (processCommandOps agent_id c h fate).get? 1 =
      some (.insertResult
        ⟨c.id, agent_id, (dispatchOutput h).1, (dispatchOutput h).2⟩) ∧
    (processCommandOps agent_id c h fate).get? 2 =
      some (.markTerminal c.id (terminalStatus (dispatchOutput h).2)) := by
  refine ⟨?_, ?_, ?_, ?_⟩
  · unfold processCommand
    rw [hins, hter]
    simp only [Bool.and_self, if_true, setStatus]
    by_cases hz : (dispatchOutput h).2 = 0
    · left; simp [terminalStatus, hz]
    · right; simp [terminalStatus, hz]
  · have hnil : List.filter (fun r => r.command_id = c.id) b.results = [] := by
      rw [List.filter_eq_nil_iff]
      intro r hr
      simpa using hfresh r hr
    unfold processCommand setStatus
    rw [hins, hter]
    by_cases hm : fate.markRunningOk <;>
      simp [hm, List.filter_append, hnil]
  · unfold processCommandOps
    rw [hins]
    rfl
  · unfold processCommandOps
    rw [hins]
    rfl

/-- Witness for C2's amended theorem at a concrete command. -/
theorem one_commandResult_adjacent_to_terminal_witness :
    (∀ r ∈ (⟨fun _ => CmdStatus.pending, []⟩ : Backend).results,
        r.command_id ≠ (⟨7, sstr "whoami"⟩ : Command).id) ∧
    ((processCommand (sstr "AGT-12AB34CD") ⟨7, sstr "whoami"⟩
        (Except.ok (sstr "root", 0)) ⟨true, true, true⟩
        ⟨fun _ => CmdStatus.pending, []⟩).results.filter
        (fun r => r.command_id = (⟨7, sstr "whoami"⟩ : Command).id)).length = 1 :=
  ⟨fun r hr => absurd hr (List.not_mem_nil r),
    (one_commandResult_adjacent_to_terminal _ _ _ _ _
      (fun r hr => absurd hr (List.not_mem_nil r)) rfl rfl).2.1⟩

/-- C3, counterexample: the command text `lsblk` matches none of the
spec-listed triggers, yet the dispatcher routes it to the ls handler with
argument `blk` instead of executing it as a shell command — the ls trigger
is matched as a bare prefix of the lowercased text. -/
theorem ls_trigger_swallows_unlisted_command :
    specTriggerMatches (sstr "lsblk") = false ∧
    route (sstr "lsblk") (sstr "/root") = .ls (sstr "blk") ∧
    route (sstr "lsblk") (sstr "/root") ≠ .defaultShell (sstr "lsblk") := by
  decide

/-- C3, amended: for every command text matching none of the trigger
conditions the dispatcher actually tests — exact match of the lowercased,
stripped text for the word triggers, the bare prefix `ls` (no separator
required), and the space-terminated prefixes `download `, `shell `, `cd ` —
the full, original command text is executed as a native shell command. -/
theorem unmatched_command_runs_as_shell (command_text cwd : PyStr)
    (hnone : codeTriggerMatches command_text = false) :
    route command_text cwd = .defaultShell command_text := by
  simp only [codeTriggerMatches, Bool.or_eq_false_iff,
    decide_eq_false_iff_not] at hnone
  obtain ⟨⟨⟨⟨⟨⟨⟨⟨⟨⟨⟨⟨⟨h1, h2⟩, h3⟩, h4⟩, h5⟩, h6⟩, h7⟩, h8⟩, h9⟩, h10⟩,
    h11⟩, h12⟩, h13⟩, h14⟩ := hnone
  simp only [route, h9, h12, h13, h14, if_neg h1, if_neg h2, if_neg h3,
    if_neg h4, if_neg h5, if_neg h6, if_neg h7, if_neg h8, if_neg h10,
    if_neg h11, Bool.false_eq_true, if_false]

/-- Witness for C3's amended theorem: `echo hi` matches no trigger and runs
as a shell command with its full text. -/
theorem unmatched_command_runs_as_shell_witness :
    codeTriggerMatches (sstr "echo hi") = false ∧
    route (sstr "echo hi") (sstr "/root") = .defaultShell (sstr "echo hi") :=
  ⟨by decide, unmatched_command_runs_as_shell _ _ (by decide)⟩

/-! ## String lemmas for the case-preservation claim -/

theorem pyLower_append (a b : PyStr) :
    pyLower (a ++ b) = pyLower a ++ pyLower b := by
  simp [pyLower]

theorem pyIsSpace_pyLowerChar (c : Char) :
    pyIsSpace (pyLowerChar c) = pyIsSpace c := by
  unfold pyLowerChar
  split <;> rfl

theorem pyStripLeft_cons_of_nonspace (c : Char) (l : PyStr)
    (h : pyIsSpace c = false) : pyStripLeft (c :: l) = c :: l := by
  simp [pyStripLeft, List.dropWhile_cons, h]

theorem pyStrip_cons_space (l : PyStr) : pyStrip (' ' :: l) = pyStrip l := by
  simp [pyStrip, pyStripLeft, List.dropWhile_cons]
  rfl

theorem pyStripRight_append (a b : PyStr) (hb : pyStripRight b ≠ []) :
    pyStripRight (a ++ b) = a ++ pyStripRight b := by
  unfold pyStripRight at hb ⊢
  rw [List.reverse_append, List.dropWhile_append]
  cases hdw : List.dropWhile pyIsSpace b.reverse with
  | nil => exact absurd (by rw [hdw]; rfl) hb
  | cons x xs =>
      simp [List.reverse_append]

theorem all_space_of_stripRight_nil (s : PyStr) (h0 : pyStripRight s = []) :
    ∀ c ∈ s, pyIsSpace c = true := by
  intro c hc
  have h1 : List.dropWhile pyIsSpace s.reverse = [] := by
    have h2 := congrArg List.reverse h0
    simpa [pyStripRight] using h2
  exact List.dropWhile_eq_nil_iff.mp h1 c (List.mem_reverse.mpr hc)

theorem pyStrip_eq_nil_of_stripRight_nil (s : PyStr)
    (h0 : pyStripRight s = []) : pyStrip s = [] := by
  have hl : pyStripLeft s = [] :=
    List.dropWhile_eq_nil_iff.mpr (all_space_of_stripRight_nil s h0)
  rw [pyStrip, hl]
  rfl

theorem pyStripRight_ne_nil (s : PyStr) (h : pyStrip s ≠ []) :
    pyStripRight s ≠ [] :=
  fun h0 => h (pyStrip_eq_nil_of_stripRight_nil s h0)

theorem pyStripRight_pyLower_ne_nil (s : PyStr) (h : pyStripRight s ≠ []) :
    pyStripRight (pyLower s) ≠ [] := by
  intro h0
  apply h
  have h1 : List.dropWhile pyIsSpace (pyLower s).reverse = [] := by
    have h2 := congrArg List.reverse h0
    simpa [pyStripRight] using h2
  have h2 : ∀ c ∈ s.reverse, pyIsSpace c = true := by
    intro c hc
    have hmem : pyLowerChar c ∈ (pyLower s).reverse := by
      rw [pyLower, ← List.map_reverse]
      exact List.mem_map_of_mem _ hc
    have h3 := List.dropWhile_eq_nil_iff.mp h1 _ hmem
    rwa [pyIsSpace_pyLowerChar] at h3
  rw [pyStripRight, List.dropWhile_eq_nil_iff.mpr h2]
  rfl

theorem route_shell_uppercase (rest cwd : PyStr) (hne : pyStrip rest ≠ []) :
    route (sstr "SHELL " ++ rest) cwd = .shell (pyStrip rest) := by
  have hR : pyStripRight (pyLower rest) ≠ [] :=
    pyStripRight_pyLower_ne_nil rest (pyStripRight_ne_nil rest hne)
  have hstrip : pyStrip (pyLower (sstr "SHELL " ++ rest)) =
      's' :: 'h' :: 'e' :: 'l' :: 'l' :: ' ' :: pyStripRight (pyLower rest) := by
    rw [pyLower_append]
    show pyStripRight (pyStripLeft ('s' :: (sstr "hell " ++ pyLower rest))) = _
    rw [pyStripLeft_cons_of_nonspace 's' _ rfl]
    show pyStripRight (sstr "shell " ++ pyLower rest) = _
    rw [pyStripRight_append _ _ hR]
    rfl
  simp only [route]
  rw [hstrip]
  simp [pyStartsWith, List.isPrefixOf, sstr]

theorem route_cd_uppercase (rest cwd : PyStr) (hne : pyStrip rest ≠ []) :
    route (sstr "CD " ++ rest) cwd = .cd (pyStrip rest) := by
  have hR : pyStripRight (pyLower rest) ≠ [] :=
    pyStripRight_pyLower_ne_nil rest (pyStripRight_ne_nil rest hne)
  have hstrip : pyStrip (pyLower (sstr "CD " ++ rest)) =
      'c' :: 'd' :: ' ' :: pyStripRight (pyLower rest) := by
    rw [pyLower_append]
    show pyStripRight (pyStripLeft ('c' :: (sstr "d " ++ pyLower rest))) = _
    rw [pyStripLeft_cons_of_nonspace 'c' _ rfl]
    show pyStripRight (sstr "cd " ++ pyLower rest) = _
    rw [pyStripRight_append _ _ hR]
    rfl
  simp only [route]
  rw [hstrip]
  simp [pyStartsWith, List.isPrefixOf, sstr]

theorem route_download_uppercase (rest cwd : PyStr)
    (hne : pyStrip rest ≠ []) :
    route (sstr "DOWNLOAD " ++ rest) cwd = .download (pyStrip rest) := by
  have hR : pyStripRight (pyLower rest) ≠ [] :=
    pyStripRight_pyLower_ne_nil rest (pyStripRight_ne_nil rest hne)
  have hstrip : pyStrip (pyLower (sstr "DOWNLOAD " ++ rest)) =
      'd' :: 'o' :: 'w' :: 'n' :: 'l' :: 'o' :: 'a' :: 'd' :: ' ' ::
        pyStripRight (pyLower rest) := by
    rw [pyLower_append]
    show pyStripRight (pyStripLeft ('d' :: (sstr "ownload " ++ pyLower rest))) = _
    rw [pyStripLeft_cons_of_nonspace 'd' _ rfl]
    show pyStripRight (sstr "download " ++ pyLower rest) = _
    rw [pyStripRight_append _ _ hR]
    rfl
  simp only [route]
  rw [hstrip]
  simp [pyStartsWith, List.isPrefixOf, sstr]

theorem route_ls_uppercase (rest cwd : PyStr) (hne : pyStrip rest ≠ []) :
    route (sstr "LS " ++ rest) cwd = .ls (pyStrip rest) := by
  have hR : pyStripRight (pyLower rest) ≠ [] :=
    pyStripRight_pyLower_ne_nil rest (pyStripRight_ne_nil rest hne)
  have hstrip : pyStrip (pyLower (sstr "LS " ++ rest)) =
      'l' :: 's' :: ' ' :: pyStripRight (pyLower rest) := by
    rw [pyLower_append]
    show pyStripRight (pyStripLeft ('l' :: (sstr "s " ++ pyLower rest))) = _
    rw [pyStripLeft_cons_of_nonspace 'l' _ rfl]
    show pyStripRight (sstr "ls " ++ pyLower rest) = _
    rw [pyStripRight_append _ _ hR]
    rfl
  simp only [route]
  rw [hstrip]
  simp [pyStartsWith, List.isPrefixOf, sstr, pyStrip_cons_space, hne]

/-- C10: trigger matching lowercases the command text only for routing,
while the argument remainder passed to the handler is sliced from the
original command text with its character case intact: for each
prefix-consuming command, an uppercased trigger still routes (routing is
case-insensitive) and the handler receives the stripped remainder of the
ORIGINAL text, not of the lowercased copy. -/
theorem arg_remainder_preserves_original_case (rest cwd : PyStr)
    (hne : pyStrip rest ≠ []) :
    route (sstr "SHELL " ++ rest) cwd = .shell (pyStrip rest) ∧
    route (sstr "CD " ++ rest) cwd = .cd (pyStrip rest) ∧
    route (sstr "DOWNLOAD " ++ rest) cwd = .download (pyStrip rest) ∧
    route (sstr "LS " ++ rest) cwd = .ls (pyStrip rest) :=
  ⟨route_shell_uppercase rest cwd hne, route_cd_uppercase rest cwd hne,
    route_download_uppercase rest cwd hne, route_ls_uppercase rest cwd hne⟩

/-- Witness for C10 at a mixed-case remainder: `SHELL Echo Hi` reaches the
shell handler with the remainder `Echo Hi` unchanged. -/
theorem arg_remainder_preserves_original_case_witness :
    pyStrip (sstr "Echo Hi") ≠ [] ∧
    route (sstr "SHELL " ++ sstr "Echo Hi") (sstr "/root") =
      .shell (pyStrip (sstr "Echo Hi")) :=
  ⟨by decide,
    (arg_remainder_preserves_original_case (sstr "Echo Hi") (sstr "/root")
      (by decide)).1⟩

end Deskman
